import Mathlib

/-!
Verification development for the PR filtering / checkpointed collection /
score aggregation core of the `dw_eval` repository.

The Python source is shallowly embedded:

* `filter_pr` (src/scrape_prs.py) becomes `DwEval.filterPr`.  Timestamps are
  modelled as epoch seconds (`Int`); the call to `datetime.now(...)` inside the
  max-age check becomes an explicit `now : Int` argument, so the clock
  dependence of the source is visible in the embedding.
* the paging / checkpoint loop of `scrape_repository` becomes
  `DwEval.processPage` (the inner for-loop over one page of candidates) and
  `DwEval.scrapeLoop` (the outer while-loop over pages).  The paged HTTP
  listing is modelled as a `List (List PR)`: the "next" link of a response is
  present exactly when further pages follow.  `save_checkpoint` appends to a
  trace of saved checkpoints.  The `return filtered_data` executed on the
  too-old early-exit path is modelled by the `PageStep.earlyReturn`
  constructor together with the ghost flag `stoppedEarly`.
* the response-aggregation part of `evaluate_with_claude`
  (src/evaluate_generic.py) becomes `DwEval.evaluateWithClaude`, operating on
  an already-parsed response (`ClaudeResponse`): `parseFailure` models a
  `json.JSONDecodeError`, and a parsed dict is modelled by `ParsedResult`
  with the keys the function inspects.  Scores are exact rationals.
* the statistics filter of `generate_report` becomes `completedEvals` /
  `averageScore`.
-/

namespace DwEval

/-- The fixed vocabulary of rejection reasons produced by `filter_pr`.
In the source these are strings ("not merged", "created too late (<date>)",
"too old (merged <date>)", "too few files (<n>)", "too many files (<n>)",
"insufficient description", "only excluded file types", "trivial changes");
the interpolated payloads are dates and counts, which cannot contain the
letters of another reason, so the constructors identify the strings up to
the substring test used by the caller. -/
inductive Reason where
  | notMerged
  | createdTooLate
  | tooOld
  | tooFewFiles
  | tooManyFiles
  | insufficientDescription
  | onlyExcludedFileTypes
  | trivialChanges
deriving DecidableEq, Repr

/-- One entry of a PR's changed-file list, as used by the scraper. -/
structure FileChange where
  filename : String
  status : String
  additions : Nat
  deletions : Nat
  changes : Nat
  patch : Option String
deriving DecidableEq, Repr

/-- A candidate pull-request record, with the fields `scrape_repository`
reads.  Timestamps are epoch seconds; `none` models an absent / null field. -/
structure PR where
  number : Nat
  title : String
  body : Option String
  htmlUrl : String
  createdAt : Option Int
  mergedAt : Option Int
  mergeCommitSha : Option String
  baseRef : String
  headSha : String
  user : String
deriving DecidableEq, Repr

/-- The `pr_filters` section of the configuration. -/
structure PRFilters where
  mergedOnly : Bool
  createdBefore : Option Int
  maxAgeMonths : Option Nat
  minFilesChanged : Nat
  maxFilesChanged : Nat
  requireDescription : Bool
  minDescriptionLength : Nat
  excludePatterns : List String
deriving DecidableEq, Repr

/-- The `scraping` section of the configuration (the fields the loop reads). -/
structure ScrapingConfig where
  maxPrsPerRepo : Nat
  checkpointInterval : Nat
deriving DecidableEq, Repr

/-- Combined configuration dictionary. -/
structure Config where
  prFilters : PRFilters
  scraping : ScrapingConfig
deriving DecidableEq, Repr

/-- Helper for the `*` wildcard: try the continuation on every suffix of the
string. -/
def globStar (g : List Char → Bool) : List Char → Bool
  | [] => g []
  | c :: cs => g (c :: cs) || globStar g cs

/-- Glob matching in the style of `fnmatch`, on character lists: `*` matches
any run of characters, `?` matches one character, anything else matches
itself.  (Character classes `[...]` of `fnmatch` are not modelled; no claim
depends on them and every bracket-free pattern behaves as in the source.) -/
def globMatch : List Char → List Char → Bool
  | [], s => s.isEmpty
  | '*' :: ps, s => globStar (globMatch ps) s
  | _ :: _, [] => false
  | '?' :: ps, _ :: cs => globMatch ps cs
  | ch :: ps, c :: cs => (ch == c) && globMatch ps cs

/-- Embedding of `matches_exclude_pattern`: does the filename match any exclude glob? -/
def matchesExcludePattern (filename : String) (patterns : List String) : Bool :=
  patterns.any fun pat => globMatch pat.toList filename.toList

/-- The sub-list of files whose name matches no exclude pattern
(`non_excluded_files` in `filter_pr`). -/
def nonExcludedFiles (files : List FileChange) (excludePatterns : List String) :
    List FileChange :=
  files.filter fun f => !matchesExcludePattern f.filename excludePatterns

/-- The condition of the `created_before` check of `filter_pr`: the option is
set, the candidate's creation timestamp is present, and
`created_date >= cutoff_date`. -/
def createdTooLateCheck (filters : PRFilters) (pr : PR) : Bool :=
  match filters.createdBefore, pr.createdAt with
  | some cutoff, some created => decide (cutoff ≤ created)
  | _, _ => false

/-- The condition of the `max_age_months` check of `filter_pr`: the option is
set, the merge timestamp is present, and
`merged_date < datetime.now() - timedelta(days=max_age_months * 30)`. -/
def tooOldCheck (filters : PRFilters) (pr : PR) (now : Int) : Bool :=
  match filters.maxAgeMonths, pr.mergedAt with
  | some months, some merged => decide (merged < now - (months : Int) * 30 * 86400)
  | _, _ => false

/-- Shallow embedding of `filter_pr(pr, files, config)`.  Returns
`(should_include, reason_if_excluded)`.  `now` is the value `datetime.now`
returns inside the max-age check (epoch seconds); a month is 30 days of
86400 seconds, as in `timedelta(days=max_age_months * 30)`. -/
def filterPr (pr : PR) (files : List FileChange) (config : Config) (now : Int) :
    Bool × Option Reason :=
  let filters := config.prFilters
  if filters.mergedOnly && pr.mergedAt.isNone then
    (false, some .notMerged)
  else if createdTooLateCheck filters pr then
    (false, some .createdTooLate)
  else if tooOldCheck filters pr now then
    (false, some .tooOld)
  else if files.length < filters.minFilesChanged then
    (false, some .tooFewFiles)
  else if filters.maxFilesChanged < files.length then
    (false, some .tooManyFiles)
  else if filters.requireDescription &&
      (pr.body.getD "").length < filters.minDescriptionLength then
    (false, some .insufficientDescription)
  else
    let ne := nonExcludedFiles files filters.excludePatterns
    if ne.isEmpty then
      (false, some .onlyExcludedFileTypes)
    else if ((ne.map (·.changes)).sum : ℚ) / (ne.length : ℚ) < 5 then
      (false, some .trivialChanges)
    else
      (true, none)

/-- The record `scrape_repository` appends to `filtered_data` for an accepted
candidate (`pr_data` in the source).  `scrapedAt` models the
`datetime.now().isoformat()` stamp. -/
structure PRData where
  prNumber : Nat
  title : String
  body : Option String
  htmlUrl : String
  createdAt : Option Int
  mergedAt : Option Int
  mergeCommitSha : Option String
  baseRef : String
  headSha : String
  user : String
  files : List FileChange
  numFiles : Nat
  scrapedAt : Int
deriving DecidableEq, Repr

/-- Build the `pr_data` record from a candidate and its file list; each file's
`patch` is defaulted to `""` as by `f.get("patch", "")`. -/
def extractPrData (pr : PR) (files : List FileChange) (now : Int) : PRData :=
  { prNumber := pr.number
    title := pr.title
    body := pr.body
    htmlUrl := pr.htmlUrl
    createdAt := pr.createdAt
    mergedAt := pr.mergedAt
    mergeCommitSha := pr.mergeCommitSha
    baseRef := pr.baseRef
    headSha := pr.headSha
    user := pr.user
    files := files.map fun f => { f with patch := some (f.patch.getD "") }
    numFiles := files.length
    scrapedAt := now }

/-- The persisted checkpoint: processed candidate ids, accepted records in
order, and the `last_updated` stamp. -/
structure Checkpoint where
  processedPrNumbers : List Nat
  filteredPrs : List PRData
  lastUpdated : Int
deriving DecidableEq, Repr

/-- Ambient inputs of one `scrape_repository` run: the configuration, the
clock, and the per-PR file-list fetch (`github.get_pull_request_files`);
`none` models the collaborator call raising an exception. -/
structure ScrapeCtx where
  cfg : Config
  now : Int
  getFiles : Nat → Option (List FileChange)

/-- The mutable state of the collection loop.  `saves` is the trace of
`save_checkpoint` calls (oldest first); `stoppedEarly` is a ghost flag set
exactly on the `return filtered_data` executed inside the loop on the
too-old path. -/
structure ScrapeState where
  processed : List Nat
  filtered : List PRData
  included : Nat
  skipped : Nat
  totalChecked : Nat
  saves : List Checkpoint
  stoppedEarly : Bool
deriving DecidableEq, Repr

/-- Embedding of `save_checkpoint`: record the current processed set and accepted list. -/
def saveCheckpoint (ctx : ScrapeCtx) (st : ScrapeState) : ScrapeState :=
  { st with saves := st.saves ++ [⟨st.processed, st.filtered, ctx.now⟩] }

/-- The state update of the rejection branch: `skipped_count += 1` and
`processed_prs.add(pr_number)`, after `total_checked += 1`. -/
def rejectedState (st : ScrapeState) (n : Nat) : ScrapeState :=
  { st with totalChecked := st.totalChecked + 1
            skipped := st.skipped + 1
            processed := st.processed.insert n }

/-- The state update of the acceptance branch: append `pr_data`, mark
processed, `included_count += 1`, after `total_checked += 1`. -/
def acceptedState (ctx : ScrapeCtx) (st : ScrapeState) (pr : PR)
    (files : List FileChange) : ScrapeState :=
  { st with totalChecked := st.totalChecked + 1
            filtered := st.filtered ++ [extractPrData pr files ctx.now]
            processed := st.processed.insert pr.number
            included := st.included + 1 }

/-- Result of running the for-loop over one page of candidates: either the
early `return` taken on a too-old rejection (carrying the returned state), or
normal completion of the page. -/
inductive PageStep where
  | earlyReturn (st : ScrapeState)
  | pageDone (st : ScrapeState)
deriving DecidableEq, Repr

/-- The state a `PageStep` carries. -/
def PageStep.state : PageStep → ScrapeState
  | .earlyReturn st => st
  | .pageDone st => st

/-- The inner `for pr in prs` loop of `scrape_repository`: skip candidates
already processed; break once the target count is reached; on a failed
file fetch mark processed and continue; otherwise count the candidate, apply
`filter_pr`, and either reject (returning at once when the reason is the
too-old one, which in the source is the substring test
`"too old" in reason`) or accept (with a periodic checkpoint save when
`included_count % checkpoint_interval == 0`). -/
def processPage (ctx : ScrapeCtx) : ScrapeState → List PR → PageStep
  | st, [] => .pageDone st
  | st, pr :: rest =>
    if pr.number ∈ st.processed then
      processPage ctx st rest
    else if ctx.cfg.scraping.maxPrsPerRepo ≤ st.included then
      .pageDone st
    else
      match ctx.getFiles pr.number with
      | none => processPage ctx { st with processed := st.processed.insert pr.number } rest
      | some files =>
        match filterPr pr files ctx.cfg ctx.now with
        | (false, reason) =>
          let st2 := rejectedState st pr.number
          if reason = some Reason.tooOld then
            .earlyReturn (saveCheckpoint ctx { st2 with stoppedEarly := true })
          else
            processPage ctx st2 rest
        | (true, _) =>
          let st2 := acceptedState ctx st pr files
          let st3 :=
            if st2.included % ctx.cfg.scraping.checkpointInterval == 0 then
              saveCheckpoint ctx st2
            else st2
          processPage ctx st3 rest

/-- The outer `while included_count < max_prs` loop of `scrape_repository`.
Pages are the successive responses of the listing endpoint; the "next" link
is present exactly when further pages follow.  Every normal exit path runs
the final `save_checkpoint`; the early return of a too-old rejection comes
back already saved and ends the scan at once.  The hard cap of 500 checked
candidates is the literal `max_prs_to_check = 500` of the source. -/
def scrapeLoop (ctx : ScrapeCtx) : List (List PR) → ScrapeState → ScrapeState
  | [], st => saveCheckpoint ctx st
  | page :: more, st =>
    if ctx.cfg.scraping.maxPrsPerRepo ≤ st.included then
      saveCheckpoint ctx st
    else if page.isEmpty then
      saveCheckpoint ctx st
    else
      match processPage ctx st page with
      | .earlyReturn st' => st'
      | .pageDone st' =>
        if ctx.cfg.scraping.maxPrsPerRepo ≤ st'.included then
          saveCheckpoint ctx st'
        else if 500 ≤ st'.totalChecked then
          saveCheckpoint ctx st'
        else if more.isEmpty then
          saveCheckpoint ctx st'
        else
          scrapeLoop ctx more st'

/-- The state `scrape_repository` starts from after loading a checkpoint:
processed set and accepted list restored, counters reset to zero. -/
def initialState (cp : Checkpoint) : ScrapeState :=
  { processed := cp.processedPrNumbers
    filtered := cp.filteredPrs
    included := 0
    skipped := 0
    totalChecked := 0
    saves := []
    stoppedEarly := false }

/-- One full collection run: resume from the checkpoint and drive the loop
over the pages the listing endpoint returns. -/
def scrapeRepository (ctx : ScrapeCtx) (cp : Checkpoint) (pages : List (List PR)) :
    ScrapeState :=
  scrapeLoop ctx pages (initialState cp)

/-- The value of the `specificity` entry of the `scores` object: a number, or
the sentinel (`"N/A"` string or JSON `null`, the two cases the source's
`specificity == "N/A" or specificity is None` test recognises). -/
inductive SpecificityVal where
  | num (q : ℚ)
  | sentinel
deriving DecidableEq, Repr

/-- The `scores` sub-object of a parsed evaluator response; `none` models a
missing key (the source reads each with `.get(key, 0)`). -/
structure ScoresObj where
  factualCorrectness : Option ℚ
  factCoverage : Option ℚ
  specificity : Option SpecificityVal
deriving DecidableEq, Repr

/-- A parsed evaluator response, with the keys `evaluate_with_claude`
inspects: `scores` (current format), top-level `score` (legacy format),
`reasoning.facts_found`, and `summary`. -/
structure ParsedResult where
  scores : Option ScoresObj
  score : Option ℚ
  factsFound : List String
  summary : String
deriving DecidableEq, Repr

/-- The evaluator collaborator's reply after the JSON-extraction step:
either `json.loads` raised (`parseFailure`) or it produced a dict. -/
inductive ClaudeResponse where
  | parseFailure
  | parsed (r : ParsedResult)
deriving DecidableEq, Repr

/-- The result dict `evaluate_with_claude` returns.  `Option` fields model
keys absent in some paths (the legacy format sets only `score` and
`total_facts`); `error` models `.get('error', False)`. -/
structure EvalResult where
  score : ℚ
  rawScore : Option ℚ
  factualCorrectness : Option ℚ
  factCoverage : Option ℚ
  specificity : Option ℚ
  specificityNa : Option Bool
  factsCovered : Option Nat
  totalFacts : Nat
  error : Bool
deriving DecidableEq, Repr

/-- The zero-score, `error: True` dict built in the two `except` handlers of
`evaluate_with_claude`. -/
def errorResult (facts : List String) : EvalResult :=
  { score := 0
    rawScore := some 0
    factualCorrectness := some 0
    factCoverage := some 0
    specificity := some 0
    specificityNa := some false
    factsCovered := some 0
    totalFacts := facts.length
    error := true }

/-- The response-aggregation part of `evaluate_with_claude`: dispatch on the
parsed shape.  Current format: sub-scores read with `.get(key, 0)`, the
sentinel specificity mapped to `0` with `specificity_na = True`, weighted
`raw_score = 2*factual + coverage + specificity` and `score = raw_score/40`,
`facts_covered = len(reasoning.facts_found)`.  Legacy format:
`score = score/100`.  Unknown format: the `raise ValueError` is caught by the
`except Exception` handler, yielding the error dict, as does a JSON parse
failure. -/
def evaluateWithClaude (resp : ClaudeResponse) (facts : List String) : EvalResult :=
  match resp with
  | .parseFailure => errorResult facts
  | .parsed r =>
    match r.scores with
    | some sc =>
      let factual := sc.factualCorrectness.getD 0
      let coverage := sc.factCoverage.getD 0
      let sp : ℚ × Bool :=
        match sc.specificity.getD (.num 0) with
        | .sentinel => (0, true)
        | .num q => (q, false)
      let rawScore := 2 * factual + coverage + sp.1
      { score := rawScore / 40
        rawScore := some rawScore
        factualCorrectness := some factual
        factCoverage := some coverage
        specificity := some sp.1
        specificityNa := some sp.2
        factsCovered := some r.factsFound.length
        totalFacts := facts.length
        error := false }
    | none =>
      match r.score with
      | some s =>
        { score := s / 100
          rawScore := none
          factualCorrectness := none
          factCoverage := none
          specificity := none
          specificityNa := none
          factsCovered := none
          totalFacts := facts.length
          error := false }
      | none => errorResult facts

/-- The statistics base of `generate_report`: the evaluations whose result
does not carry the error flag (`completed` in the source). -/
def completedEvals (evals : List EvalResult) : List EvalResult :=
  evals.filter fun e => !e.error

/-- The `avg_score` statistic of `generate_report`: mean score over the
completed evaluations. -/
def averageScore (evals : List EvalResult) : ℚ :=
  ((completedEvals evals).map (·.score)).sum / ((completedEvals evals).length : ℚ)

/-- Modelled from the spec (§4.2): the eight checks as independent predicates
paired with their reasons, in the spec's order; file-count bounds are the
spec's interval test, the trivial-changes test is the average over the
non-excluded subset.  Used only to compare with `filterPr`. -/
def specChecks (pr : PR) (files : List FileChange) (filters : PRFilters)
    (now : Int) : List (Bool × Reason) :=
  [ (filters.mergedOnly && pr.mergedAt.isNone, .notMerged),
    (createdTooLateCheck filters pr, .createdTooLate),
    (tooOldCheck filters pr now, .tooOld),
    (decide (files.length < filters.minFilesChanged), .tooFewFiles),
    (decide (filters.maxFilesChanged < files.length), .tooManyFiles),
    (filters.requireDescription &&
       decide ((pr.body.getD "").length < filters.minDescriptionLength),
     .insufficientDescription),
    ((nonExcludedFiles files filters.excludePatterns).isEmpty,
     .onlyExcludedFileTypes),
    (decide ((((nonExcludedFiles files filters.excludePatterns).map
          (·.changes)).sum : ℚ) /
        ((nonExcludedFiles files filters.excludePatterns).length : ℚ) < 5),
     .trivialChanges) ]

/-- Modelled from the spec (§4.2): "first failing check wins"; if no check
fails the candidate is accepted. -/
def filterPrSpec (pr : PR) (files : List FileChange) (config : Config)
    (now : Int) : Bool × Option Reason :=
  match (specChecks pr files config.prFilters now).find? (·.1) with
  | some c => (false, some c.2)
  | none => (true, none)

/-- C3: for every parsed response in the current format with numeric
sub-scores F, C, S, the aggregator returns `raw_score = 2*F + C + S` and
`score = raw_score / 40`. -/
theorem aggregate_weighted_score (r : ParsedResult) (facts : List String)
    (f c s : ℚ) (h : r.scores = some ⟨some f, some c, some (.num s)⟩) :
    (evaluateWithClaude (.parsed r) facts).rawScore = some (2 * f + c + s) ∧
    (evaluateWithClaude (.parsed r) facts).score = (2 * f + c + s) / 40 := by
  simp [evaluateWithClaude, h]

/-- Witness for C3: F=8, C=6, S=4 yields `raw_score = 26` and score `0.65`. -/
theorem aggregate_weighted_score_witness :
    (evaluateWithClaude
        (.parsed ⟨some ⟨some 8, some 6, some (.num 4)⟩, none, [], ""⟩)
        []).rawScore = some 26 ∧
    (evaluateWithClaude
        (.parsed ⟨some ⟨some 8, some 6, some (.num 4)⟩, none, [], ""⟩)
        []).score = 0.65 := by
  have h := aggregate_weighted_score
    ⟨some ⟨some 8, some 6, some (.num 4)⟩, none, [], ""⟩ [] 8 6 4 rfl
  refine ⟨?_, ?_⟩
  · rw [h.1]; norm_num
  · rw [h.2]; norm_num

/-- Counterexample to C4 as stated: a parsed response whose `specificity`
key is MISSING takes the numeric default `0` from `.get('specificity', 0)`,
so the `specificity == "N/A" or specificity is None` test fails and the
code sets `specificity_na = False`, where the claim demands `True`. -/
theorem specificity_missing_counterexample :
    (evaluateWithClaude (.parsed ⟨some ⟨some 10, some 10, none⟩, none, [], ""⟩)
        []).specificityNa = some false ∧
    (evaluateWithClaude (.parsed ⟨some ⟨some 10, some 10, none⟩, none, [], ""⟩)
        []).specificityNa ≠ some true := by
  refine ⟨rfl, ?_⟩
  intro h
  exact Bool.noConfusion (Option.some.injEq _ _ ▸ h)

/-- C4 (amended): only the sentinel values `"N/A"` and `null` of the
`specificity` field are treated as 0 with `specificity_na = True`; a missing
`specificity` field is instead defaulted to the number 0 with
`specificity_na = False`. -/
theorem aggregate_specificity_sentinel :
    (∀ (r : ParsedResult) (facts : List String) (f c : ℚ),
       r.scores = some ⟨some f, some c, some .sentinel⟩ →
       (evaluateWithClaude (.parsed r) facts).specificity = some 0 ∧
       (evaluateWithClaude (.parsed r) facts).specificityNa = some true ∧
       (evaluateWithClaude (.parsed r) facts).rawScore = some (2 * f + c) ∧
       (evaluateWithClaude (.parsed r) facts).score = (2 * f + c) / 40) ∧
    (∀ (r : ParsedResult) (facts : List String) (f c : ℚ),
       r.scores = some ⟨some f, some c, none⟩ →
       (evaluateWithClaude (.parsed r) facts).specificity = some 0 ∧
       (evaluateWithClaude (.parsed r) facts).specificityNa = some false) := by
  constructor
  · intro r facts f c h
    simp [evaluateWithClaude, h]
  · intro r facts f c h
    simp [evaluateWithClaude, h]

/-- Witness for C4 (amended): factual=10, coverage=10, specificity="N/A"
yields raw 30, score 0.75, `specificity_na = True`; the same scores with
specificity missing yield `specificity_na = False`. -/
theorem aggregate_specificity_sentinel_witness :
    (evaluateWithClaude
        (.parsed ⟨some ⟨some 10, some 10, some .sentinel⟩, none, [], ""⟩)
        []).rawScore = some 30 ∧
    (evaluateWithClaude
        (.parsed ⟨some ⟨some 10, some 10, some .sentinel⟩, none, [], ""⟩)
        []).score = 0.75 ∧
    (evaluateWithClaude
        (.parsed ⟨some ⟨some 10, some 10, some .sentinel⟩, none, [], ""⟩)
        []).specificityNa = some true ∧
    (evaluateWithClaude (.parsed ⟨some ⟨some 10, some 10, none⟩, none, [], ""⟩)
        []).specificityNa = some false := by
  have h1 := aggregate_specificity_sentinel.1
    ⟨some ⟨some 10, some 10, some .sentinel⟩, none, [], ""⟩ [] 10 10 rfl
  have h2 := aggregate_specificity_sentinel.2
    ⟨some ⟨some 10, some 10, none⟩, none, [], ""⟩ [] 10 10 rfl
  refine ⟨?_, ?_, h1.2.1, h2.2⟩
  · rw [h1.2.2.1]; norm_num
  · rw [h1.2.2.2]; norm_num

/-- C7: an unparsable response, or a parsed one matching neither the
`scores`-object format nor the legacy `score` format, yields a result with
score 0 and `error = True` instead of an exception, and error-flagged
results are dropped from `completed`, leaving the aggregate statistics
unchanged. -/
theorem malformed_response_error_flag :
    (∀ facts : List String,
       (evaluateWithClaude .parseFailure facts).score = 0 ∧
       (evaluateWithClaude .parseFailure facts).error = true) ∧
    (∀ (r : ParsedResult) (facts : List String),
       r.scores = none → r.score = none →
       (evaluateWithClaude (.parsed r) facts).score = 0 ∧
       (evaluateWithClaude (.parsed r) facts).error = true) ∧
    (∀ (evals : List EvalResult) (e : EvalResult), e.error = true →
       completedEvals (evals ++ [e]) = completedEvals evals ∧
       averageScore (evals ++ [e]) = averageScore evals) := by
  refine ⟨fun facts => ⟨rfl, rfl⟩, ?_, ?_⟩
  · intro r facts h1 h2
    simp [evaluateWithClaude, h1, h2, errorResult]
  · intro evals e he
    have hc : completedEvals (evals ++ [e]) = completedEvals evals := by
      simp [completedEvals, List.filter_append, he]
    exact ⟨hc, by simp [averageScore, hc]⟩

/-- Witness for C7: a response with neither `scores` nor `score` gives a
zero score flagged as error, and appending an error result leaves the
average unchanged. -/
theorem malformed_response_error_flag_witness :
    ((evaluateWithClaude (.parsed ⟨none, none, [], ""⟩) ["x"]).score = 0 ∧
     (evaluateWithClaude (.parsed ⟨none, none, [], ""⟩) ["x"]).error = true) ∧
    (completedEvals ([] ++ [errorResult ["x"]]) = completedEvals [] ∧
     averageScore ([] ++ [errorResult ["x"]]) = averageScore []) := by
  exact ⟨malformed_response_error_flag.2.1 ⟨none, none, [], ""⟩ ["x"] rfl rfl,
         malformed_response_error_flag.2.2 [] (errorResult ["x"]) rfl⟩

/-- Counterexample to C8 as stated: an evaluator response enumerating two
found facts against a one-element fact list yields `facts_covered = 2`
exceeding `total_facts = 1`; the code trusts the evaluator's list and does
not clamp. -/
theorem facts_covered_exceeds_total_counterexample :
    (evaluateWithClaude
        (.parsed ⟨some ⟨some 1, some 1, some (.num 1)⟩, none, ["a", "b"], ""⟩)
        ["x"]).factsCovered = some 2 ∧
    (evaluateWithClaude
        (.parsed ⟨some ⟨some 1, some 1, some (.num 1)⟩, none, ["a", "b"], ""⟩)
        ["x"]).totalFacts = 1 := by
  exact ⟨rfl, rfl⟩

/-- C8 (amended): in the current format `facts_covered` equals the length of
the evaluator's `facts_found` list, unconditionally; it is not clamped to
`total_facts = len(facts)` and can exceed it. -/
theorem facts_covered_unclamped (r : ParsedResult) (facts : List String)
    (sc : ScoresObj) (h : r.scores = some sc) :
    (evaluateWithClaude (.parsed r) facts).factsCovered =
      some r.factsFound.length ∧
    (evaluateWithClaude (.parsed r) facts).totalFacts = facts.length := by
  simp [evaluateWithClaude, h]

/-- Witness for C8 (amended): a concrete response with three enumerated
facts found over a two-element fact list. -/
theorem facts_covered_unclamped_witness :
    (evaluateWithClaude
        (.parsed ⟨some ⟨some 5, some 5, some (.num 5)⟩, none, ["a", "b", "c"], ""⟩)
        ["f1", "f2"]).factsCovered = some 3 ∧
    (evaluateWithClaude
        (.parsed ⟨some ⟨some 5, some 5, some (.num 5)⟩, none, ["a", "b", "c"], ""⟩)
        ["f1", "f2"]).totalFacts = 2 := by
  exact facts_covered_unclamped
    ⟨some ⟨some 5, some 5, some (.num 5)⟩, none, ["a", "b", "c"], ""⟩
    ["f1", "f2"] ⟨some 5, some 5, some (.num 5)⟩ rfl

/-- Helper: the source's cascaded filter agrees with the spec's
first-failing-check-wins reading check by check. -/
lemma filterPr_eq_filterPrSpec (pr : PR) (files : List FileChange)
    (config : Config) (now : Int) :
    filterPr pr files config now = filterPrSpec pr files config now := by
  simp only [filterPr, filterPrSpec, specChecks, List.find?]
  cases h1 : config.prFilters.mergedOnly && pr.mergedAt.isNone
  case true => simp
  case false =>
  cases h2 : createdTooLateCheck config.prFilters pr
  case true => simp
  case false =>
  cases h3 : tooOldCheck config.prFilters pr now
  case true => simp
  case false =>
  by_cases h4 : files.length < config.prFilters.minFilesChanged
  case pos => simp [h4]
  case neg =>
  by_cases h5 : config.prFilters.maxFilesChanged < files.length
  case pos => simp [h4, h5]
  case neg =>
  cases h6 : config.prFilters.requireDescription &&
      decide ((pr.body.getD "").length < config.prFilters.minDescriptionLength)
  case true => simp [h4, h5, h6]
  case false =>
  cases h7 : (nonExcludedFiles files config.prFilters.excludePatterns).isEmpty
  case true => simp [h4, h5, h7]
  case false =>
  by_cases h8 : (((nonExcludedFiles files config.prFilters.excludePatterns).map
        (·.changes)).sum : ℚ) /
      ((nonExcludedFiles files config.prFilters.excludePatterns).length : ℚ) < 5
  case pos => simp [h4, h5, h8]
  case neg => simp [h4, h5, h8]

/-- C2: the filter evaluates its checks in the fixed order
merged → created_before → max_age → file count → description → excluded
patterns → trivial changes; the result is the first failing check's reason
(equality with the spec-modelled first-fail function), exactly one outcome
is produced (accepted iff no reason), and a candidate failing both the
merged check and the file-count check reports `not_merged`. -/
theorem filter_first_failing_check_wins :
    (∀ (pr : PR) (files : List FileChange) (config : Config) (now : Int),
       filterPr pr files config now = filterPrSpec pr files config now) ∧
    (∀ (pr : PR) (files : List FileChange) (config : Config) (now : Int),
       (filterPr pr files config now).1 = true ↔
       (filterPr pr files config now).2 = none) ∧
    (∀ (pr : PR) (files : List FileChange) (config : Config) (now : Int),
       config.prFilters.mergedOnly = true → pr.mergedAt = none →
       filterPr pr files config now = (false, some .notMerged)) := by
  refine ⟨filterPr_eq_filterPrSpec, ?_, ?_⟩
  · intro pr files config now
    simp only [filterPr]
    split_ifs <;> simp
  · intro pr files config now h1 h2
    simp [filterPr, h1, h2]

/-- Witness for C2: a candidate failing both the merged check and the
file-count check (zero files against a minimum of one) reports
`not_merged`, the first failing check's reason. -/
theorem filter_first_failing_check_wins_witness :
    filterPr
      ⟨7, "t", none, "", some 0, none, none, "", "", ""⟩ []
      ⟨⟨true, none, none, 1, 5, false, 0, []⟩, ⟨5, 10⟩⟩ 0 =
      (false, some .notMerged) ∧
    filterPr
      ⟨7, "t", none, "", some 0, none, none, "", "", ""⟩ []
      ⟨⟨true, none, none, 1, 5, false, 0, []⟩, ⟨5, 10⟩⟩ 0 =
      filterPrSpec
        ⟨7, "t", none, "", some 0, none, none, "", "", ""⟩ []
        ⟨⟨true, none, none, 1, 5, false, 0, []⟩, ⟨5, 10⟩⟩ 0 ∧
    ((filterPr
        ⟨7, "t", none, "", some 0, none, none, "", "", ""⟩ []
        ⟨⟨true, none, none, 1, 5, false, 0, []⟩, ⟨5, 10⟩⟩ 0).1 = true ↔
     (filterPr
        ⟨7, "t", none, "", some 0, none, none, "", "", ""⟩ []
        ⟨⟨true, none, none, 1, 5, false, 0, []⟩, ⟨5, 10⟩⟩ 0).2 = none) := by
  exact ⟨filter_first_failing_check_wins.2.2 _ _ _ 0 rfl rfl,
         filter_first_failing_check_wins.1 _ _ _ 0,
         filter_first_failing_check_wins.2.1 _ _ _ 0⟩

/-- Counterexample to C9 as stated: the filter reads the clock
(`datetime.now`) inside the max-age check, so with `max_age_months` set the
same candidate, file list and config yield different outcomes at different
times — here `too_few_files` at epoch 0 but `too_old` at epoch 10^9. -/
theorem filter_clock_dependence_counterexample :
    filterPr ⟨1, "t", none, "", none, some 0, none, "", "", ""⟩ []
      ⟨⟨false, none, some 1, 1, 10, false, 0, []⟩, ⟨5, 10⟩⟩ 0 ≠
    filterPr ⟨1, "t", none, "", none, some 0, none, "", "", ""⟩ []
      ⟨⟨false, none, some 1, 1, 10, false, 0, []⟩, ⟨5, 10⟩⟩ 1000000000 := by
  decide

/-- C9 (amended): the filter is a pure function of candidate, file list,
config AND the current clock reading; when `max_age_months` is unset the
outcome is independent of the clock, so it is pure in the three arguments
alone only in that case. -/
theorem filter_pure_given_clock (pr : PR) (files : List FileChange)
    (config : Config) (now₁ now₂ : Int)
    (h : config.prFilters.maxAgeMonths = none) :
    filterPr pr files config now₁ = filterPr pr files config now₂ := by
  unfold filterPr tooOldCheck
  simp [h]

/-- Witness for C9 (amended): with `max_age_months` unset the outcome at two
different clock readings coincides. -/
theorem filter_pure_given_clock_witness :
    (⟨⟨false, none, none, 1, 10, false, 0, []⟩,
      ⟨5, 10⟩⟩ : Config).prFilters.maxAgeMonths = (none : Option Nat) ∧
    filterPr ⟨1, "t", none, "", none, some 0, none, "", "", ""⟩ []
      ⟨⟨false, none, none, 1, 10, false, 0, []⟩, ⟨5, 10⟩⟩ 0 =
    filterPr ⟨1, "t", none, "", none, some 0, none, "", "", ""⟩ []
      ⟨⟨false, none, none, 1, 10, false, 0, []⟩, ⟨5, 10⟩⟩ 1000000000 := by
  exact ⟨rfl, filter_pure_given_clock _ _ _ 0 1000000000 rfl⟩

/-- C10 (implicit): the trivial-changes average never divides by zero —
any candidate whose outcome comes from check 7 (accepted or
`trivial_changes`) has a non-empty non-excluded file subset, because an
empty subset is already rejected as `only_excluded_file_types` at check 6. -/
theorem trivial_check_denominator_nonzero :
    (∀ (pr : PR) (files : List FileChange) (config : Config) (now : Int),
       ((filterPr pr files config now).1 = true ∨
        (filterPr pr files config now).2 = some Reason.trivialChanges) →
       nonExcludedFiles files config.prFilters.excludePatterns ≠ []) ∧
    (∀ (pr : PR) (files : List FileChange) (config : Config) (now : Int),
       nonExcludedFiles files config.prFilters.excludePatterns = [] →
       (filterPr pr files config now).1 = false ∧
       (filterPr pr files config now).2 ≠ some Reason.trivialChanges) := by
  have key : ∀ (pr : PR) (files : List FileChange) (config : Config) (now : Int),
      nonExcludedFiles files config.prFilters.excludePatterns = [] →
      (filterPr pr files config now).1 = false ∧
      (filterPr pr files config now).2 ≠ some Reason.trivialChanges := by
    intro pr files config now h
    unfold filterPr
    simp only [h]
    split_ifs <;> simp_all
  refine ⟨?_, key⟩
  intro pr files config now hout
  intro hne
  have hk := key pr files config now hne
  rcases hout with h | h
  · rw [hk.1] at h
    exact Bool.noConfusion h
  · exact hk.2 h

/-- Witness for C10: a concrete accepted candidate (one non-excluded file
with ten changed lines) indeed has a non-empty non-excluded subset, and a
candidate whose only file is excluded is rejected before check 7. -/
theorem trivial_check_denominator_nonzero_witness :
    nonExcludedFiles [⟨"a.py", "modified", 5, 5, 10, none⟩] [] ≠ [] ∧
    ((filterPr ⟨1, "t", some "b", "", none, some 0, none, "", "", ""⟩
        [⟨"a.md", "modified", 5, 5, 10, none⟩]
        ⟨⟨false, none, none, 1, 10, false, 0, ["*.md"]⟩, ⟨5, 10⟩⟩ 0).1 = false ∧
     (filterPr ⟨1, "t", some "b", "", none, some 0, none, "", "", ""⟩
        [⟨"a.md", "modified", 5, 5, 10, none⟩]
        ⟨⟨false, none, none, 1, 10, false, 0, ["*.md"]⟩, ⟨5, 10⟩⟩ 0).2 ≠
       some Reason.trivialChanges) := by
  refine ⟨?_, ?_⟩
  · exact trivial_check_denominator_nonzero.1
      ⟨1, "t", some "b", "", none, some 0, none, "", "", ""⟩
      [⟨"a.py", "modified", 5, 5, 10, none⟩]
      ⟨⟨false, none, none, 1, 10, false, 0, []⟩, ⟨5, 10⟩⟩ 0
      (Or.inl (by norm_num [filterPr, createdTooLateCheck, tooOldCheck,
        nonExcludedFiles, matchesExcludePattern]))
  · exact trivial_check_denominator_nonzero.2
      ⟨1, "t", some "b", "", none, some 0, none, "", "", ""⟩
      [⟨"a.md", "modified", 5, 5, 10, none⟩]
      ⟨⟨false, none, none, 1, 10, false, 0, ["*.md"]⟩, ⟨5, 10⟩⟩ 0
      (by simp [nonExcludedFiles, matchesExcludePattern, globMatch, globStar])

/-- Helper: saving a checkpoint does not change the early-stop flag. -/
@[simp] lemma saveCheckpoint_stoppedEarly (ctx : ScrapeCtx) (st : ScrapeState) :
    (saveCheckpoint ctx st).stoppedEarly = st.stoppedEarly := rfl

/-- Helper: the rejection bookkeeping does not change the early-stop flag. -/
@[simp] lemma rejectedState_stoppedEarly (st : ScrapeState) (n : Nat) :
    (rejectedState st n).stoppedEarly = st.stoppedEarly := rfl

/-- Helper: the acceptance bookkeeping does not change the early-stop flag. -/
@[simp] lemma acceptedState_stoppedEarly (ctx : ScrapeCtx) (st : ScrapeState)
    (pr : PR) (files : List FileChange) :
    (acceptedState ctx st pr files).stoppedEarly = st.stoppedEarly := rfl

/-- C6: when the file-list fetch for a not-yet-processed candidate fails,
the collector marks the candidate processed and continues with the rest of
the page; nothing is appended to the accepted list and none of the
included / skipped / checked counters moves. -/
theorem fetch_failure_skip_and_continue (ctx : ScrapeCtx) (st : ScrapeState)
    (pr : PR) (rest : List PR)
    (h1 : pr.number ∉ st.processed)
    (h2 : st.included < ctx.cfg.scraping.maxPrsPerRepo)
    (h3 : ctx.getFiles pr.number = none) :
    processPage ctx st (pr :: rest) =
      processPage ctx { st with processed := st.processed.insert pr.number } rest := by
  rw [processPage, if_neg h1, if_neg (Nat.not_le.mpr h2)]
  simp only [h3]

/-- Witness for C6: a context whose file fetch always fails processes a
one-candidate page into the skip state. -/
theorem fetch_failure_skip_and_continue_witness :
    processPage ⟨⟨⟨true, none, none, 1, 5, false, 0, []⟩, ⟨5, 10⟩⟩, 0, fun _ => none⟩
        ⟨[], [], 0, 0, 0, [], false⟩ [⟨9, "t", none, "", none, none, none, "", "", ""⟩] =
      processPage ⟨⟨⟨true, none, none, 1, 5, false, 0, []⟩, ⟨5, 10⟩⟩, 0, fun _ => none⟩
        ⟨[9], [], 0, 0, 0, [], false⟩ [] := by
  exact fetch_failure_skip_and_continue
    ⟨⟨⟨true, none, none, 1, 5, false, 0, []⟩, ⟨5, 10⟩⟩, 0, fun _ => none⟩
    ⟨[], [], 0, 0, 0, [], false⟩
    ⟨9, "t", none, "", none, none, none, "", "", ""⟩ [] (by decide) (by decide) rfl

/-- Helper: a page whose candidates are all already processed is skipped
wholesale, leaving the state untouched. -/
lemma processPage_all_processed (ctx : ScrapeCtx) :
    ∀ (page : List PR) (st : ScrapeState),
      (∀ pr ∈ page, pr.number ∈ st.processed) →
      processPage ctx st page = .pageDone st := by
  intro page
  induction page with
  | nil => intro st _; rfl
  | cons pr rest ih =>
    intro st h
    rw [processPage, if_pos (h pr (List.mem_cons_self pr rest))]
    exact ih st fun q hq => h q (List.mem_cons_of_mem pr hq)

/-- Helper: with every candidate of every page already processed, the loop
changes neither the accepted list nor the processed set. -/
lemma scrapeLoop_all_processed (ctx : ScrapeCtx) :
    ∀ (pages : List (List PR)) (st : ScrapeState),
      (∀ page ∈ pages, ∀ pr ∈ page, pr.number ∈ st.processed) →
      (scrapeLoop ctx pages st).filtered = st.filtered ∧
      (scrapeLoop ctx pages st).processed = st.processed := by
  intro pages
  induction pages with
  | nil => intro st _; exact ⟨rfl, rfl⟩
  | cons page more ih =>
    intro st h
    rw [scrapeLoop]
    by_cases hmax : ctx.cfg.scraping.maxPrsPerRepo ≤ st.included
    · rw [if_pos hmax]; exact ⟨rfl, rfl⟩
    · rw [if_neg hmax]
      by_cases hemp : page.isEmpty
      · rw [if_pos hemp]; exact ⟨rfl, rfl⟩
      · rw [if_neg hemp,
            processPage_all_processed ctx page st (h page (List.mem_cons_self page more))]
        dsimp only
        split_ifs <;>
          first
          | exact ⟨rfl, rfl⟩
          | exact ih st fun p hp => h p (List.mem_cons_of_mem page hp)

/-- C5: collection is idempotent with respect to a complete checkpoint —
when every candidate the pager will return is already in the checkpoint's
processed-id set, a re-run returns the checkpoint's accepted-record
sequence unchanged (no duplicates, no reordering) and the processed set
unchanged. -/
theorem collect_idempotent_on_complete_checkpoint (ctx : ScrapeCtx)
    (cp : Checkpoint) (pages : List (List PR))
    (h : ∀ page ∈ pages, ∀ pr ∈ page, pr.number ∈ cp.processedPrNumbers) :
    (scrapeRepository ctx cp pages).filtered = cp.filteredPrs ∧
    (scrapeRepository ctx cp pages).processed = cp.processedPrNumbers := by
  exact scrapeLoop_all_processed ctx pages (initialState cp) h

/-- Witness for C5: a checkpoint already containing the only candidate's id
is returned unchanged. -/
theorem collect_idempotent_on_complete_checkpoint_witness :
    (scrapeRepository ⟨⟨⟨true, none, none, 1, 5, false, 0, []⟩, ⟨5, 10⟩⟩, 0, fun _ => none⟩
        ⟨[4], [], 77⟩ [[⟨4, "t", none, "", none, none, none, "", "", ""⟩]]).filtered = [] ∧
    (scrapeRepository ⟨⟨⟨true, none, none, 1, 5, false, 0, []⟩, ⟨5, 10⟩⟩, 0, fun _ => none⟩
        ⟨[4], [], 77⟩ [[⟨4, "t", none, "", none, none, none, "", "", ""⟩]]).processed = [4] := by
  exact collect_idempotent_on_complete_checkpoint
    ⟨⟨⟨true, none, none, 1, 5, false, 0, []⟩, ⟨5, 10⟩⟩, 0, fun _ => none⟩
    ⟨[4], [], 77⟩ [[⟨4, "t", none, "", none, none, none, "", "", ""⟩]] (by decide)

/-- Helper: the inner page loop takes its early `return` only when some
candidate of the page is fetched successfully and rejected as too old. -/
lemma processPage_earlyReturn_tooOld (ctx : ScrapeCtx) :
    ∀ (page : List PR) (st st' : ScrapeState),
      processPage ctx st page = .earlyReturn st' →
      ∃ pr ∈ page, ∃ files, ctx.getFiles pr.number = some files ∧
        filterPr pr files ctx.cfg ctx.now = (false, some .tooOld) := by
  intro page
  induction page with
  | nil =>
    intro st st' h
    exact absurd h (by simp [processPage])
  | cons pr rest ih =>
    intro st st' h
    rw [processPage] at h
    by_cases h1 : pr.number ∈ st.processed
    · rw [if_pos h1] at h
      obtain ⟨q, hq, hw⟩ := ih st st' h
      exact ⟨q, List.mem_cons_of_mem pr hq, hw⟩
    · rw [if_neg h1] at h
      by_cases h2 : ctx.cfg.scraping.maxPrsPerRepo ≤ st.included
      · rw [if_pos h2] at h
        exact absurd h (by simp)
      · rw [if_neg h2] at h
        cases hg : ctx.getFiles pr.number with
        | none =>
          simp only [hg] at h
          obtain ⟨q, hq, hw⟩ := ih _ st' h
          exact ⟨q, List.mem_cons_of_mem pr hq, hw⟩
        | some files =>
          simp only [hg] at h
          rcases hf : filterPr pr files ctx.cfg ctx.now with ⟨b, reason⟩
          cases b
          · simp only [hf] at h
            by_cases hr : reason = some Reason.tooOld
            · exact ⟨pr, List.mem_cons_self pr rest, files, hg, by rw [hf, hr]⟩
            · rw [if_neg hr] at h
              obtain ⟨q, hq, hw⟩ := ih _ st' h
              exact ⟨q, List.mem_cons_of_mem pr hq, hw⟩
          · simp only [hf] at h
            obtain ⟨q, hq, hw⟩ := ih _ st' h
            exact ⟨q, List.mem_cons_of_mem pr hq, hw⟩

/-- Helper: when the inner page loop finishes a page normally, the
early-stop flag is unchanged. -/
lemma processPage_pageDone_flag (ctx : ScrapeCtx) :
    ∀ (page : List PR) (st st' : ScrapeState),
      processPage ctx st page = .pageDone st' →
      st'.stoppedEarly = st.stoppedEarly := by
  intro page
  induction page with
  | nil =>
    intro st st' h
    rw [processPage] at h
    injection h with h
    rw [← h]
  | cons pr rest ih =>
    intro st st' h
    rw [processPage] at h
    by_cases h1 : pr.number ∈ st.processed
    · rw [if_pos h1] at h
      exact ih st st' h
    · rw [if_neg h1] at h
      by_cases h2 : ctx.cfg.scraping.maxPrsPerRepo ≤ st.included
      · rw [if_pos h2] at h
        injection h with h
        rw [← h]
      · rw [if_neg h2] at h
        cases hg : ctx.getFiles pr.number with
        | none =>
          simp only [hg] at h
          exact ih { st with processed := st.processed.insert pr.number } st' h
        | some files =>
          simp only [hg] at h
          rcases hf : filterPr pr files ctx.cfg ctx.now with ⟨b, reason⟩
          cases b
          · simp only [hf] at h
            by_cases hr : reason = some Reason.tooOld
            · rw [if_pos hr] at h
              exact absurd h (by simp)
            · rw [if_neg hr] at h
              exact ih (rejectedState st pr.number) st' h
          · simp only [hf] at h
            have hih := ih _ st' h
            rw [hih]
            split_ifs <;> rfl

/-- Helper: a run whose result carries the early-stop flag either started
with it or contains a candidate rejected as too old. -/
lemma scrapeLoop_stoppedEarly_source (ctx : ScrapeCtx) :
    ∀ (pages : List (List PR)) (st : ScrapeState),
      (scrapeLoop ctx pages st).stoppedEarly = true →
      st.stoppedEarly = true ∨
      ∃ page ∈ pages, ∃ pr ∈ page, ∃ files,
        ctx.getFiles pr.number = some files ∧
        filterPr pr files ctx.cfg ctx.now = (false, some .tooOld) := by
  intro pages
  induction pages with
  | nil =>
    intro st h
    exact Or.inl h
  | cons page more ih =>
    intro st h
    rw [scrapeLoop] at h
    by_cases hmax : ctx.cfg.scraping.maxPrsPerRepo ≤ st.included
    · rw [if_pos hmax] at h
      exact Or.inl h
    · rw [if_neg hmax] at h
      by_cases hemp : page.isEmpty
      · rw [if_pos hemp] at h
        exact Or.inl h
      · rw [if_neg hemp] at h
        cases hp : processPage ctx st page with
        | earlyReturn st2 =>
          obtain ⟨pr, hpr, w⟩ := processPage_earlyReturn_tooOld ctx page st st2 hp
          exact Or.inr ⟨page, List.mem_cons_self page more, pr, hpr, w⟩
        | pageDone st2 =>
          rw [hp] at h
          dsimp only at h
          have hflag := processPage_pageDone_flag ctx page st st2 hp
          split_ifs at h
          · exact Or.inl (hflag ▸ h)
          · exact Or.inl (hflag ▸ h)
          · exact Or.inl (hflag ▸ h)
          · rcases ih st2 h with h2 | ⟨p, hpm, w⟩
            · exact Or.inl (hflag ▸ h2)
            · exact Or.inr ⟨p, List.mem_cons_of_mem page hpm, w⟩

/-- Helper: a too-old rejection of the next unprocessed candidate stops the
whole scan at once — the saved checkpoint (with the candidate marked
processed and counted as skipped) is the final result, whatever candidates
or pages remain. -/
lemma scrapeLoop_too_old_stops (ctx : ScrapeCtx) (st : ScrapeState) (pr : PR)
    (inner : List PR) (more : List (List PR)) (files : List FileChange)
    (h1 : pr.number ∉ st.processed)
    (h2 : st.included < ctx.cfg.scraping.maxPrsPerRepo)
    (h3 : ctx.getFiles pr.number = some files)
    (h4 : filterPr pr files ctx.cfg ctx.now = (false, some .tooOld)) :
    scrapeLoop ctx ((pr :: inner) :: more) st =
      saveCheckpoint ctx { rejectedState st pr.number with stoppedEarly := true } := by
  have hp : processPage ctx st (pr :: inner) =
      .earlyReturn (saveCheckpoint ctx { rejectedState st pr.number with stoppedEarly := true }) := by
    rw [processPage, if_neg h1, if_neg (Nat.not_le.mpr h2)]
    simp only [h3, h4]
    simp
  rw [scrapeLoop, if_neg (Nat.not_le.mpr h2), if_neg (by simp), hp]

/-- Helper: every rejection reason other than the too-old one lets the scan
continue with the remaining candidates of the page. -/
lemma processPage_other_reason_continues (ctx : ScrapeCtx) (st : ScrapeState)
    (pr : PR) (rest : List PR) (files : List FileChange) (r : Reason)
    (h1 : pr.number ∉ st.processed)
    (h2 : st.included < ctx.cfg.scraping.maxPrsPerRepo)
    (h3 : ctx.getFiles pr.number = some files)
    (h4 : filterPr pr files ctx.cfg ctx.now = (false, some r))
    (h5 : r ≠ .tooOld) :
    processPage ctx st (pr :: rest) =
      processPage ctx (rejectedState st pr.number) rest := by
  rw [processPage, if_neg h1, if_neg (Nat.not_le.mpr h2)]
  simp only [h3, h4]
  rw [if_neg fun hc => h5 (Option.some.inj hc)]

/-- C1: the scan stops (and persists the checkpoint) immediately when and
only when the filter produces the too-old reason: a too-old rejection of
the next unprocessed candidate makes the saved checkpoint — with that
candidate marked processed — the final result regardless of everything
still unread; any other rejection reason continues with the rest of the
page; and a run that ended with the early-stop signal must contain a
candidate the filter rejected as too old. -/
theorem too_old_stops_scan :
    (∀ (ctx : ScrapeCtx) (st : ScrapeState) (pr : PR) (inner : List PR)
       (more : List (List PR)) (files : List FileChange),
       pr.number ∉ st.processed →
       st.included < ctx.cfg.scraping.maxPrsPerRepo →
       ctx.getFiles pr.number = some files →
       filterPr pr files ctx.cfg ctx.now = (false, some .tooOld) →
       scrapeLoop ctx ((pr :: inner) :: more) st =
         saveCheckpoint ctx { rejectedState st pr.number with stoppedEarly := true }) ∧
    (∀ (ctx : ScrapeCtx) (st : ScrapeState) (pr : PR) (rest : List PR)
       (files : List FileChange) (r : Reason),
       pr.number ∉ st.processed →
       st.included < ctx.cfg.scraping.maxPrsPerRepo →
       ctx.getFiles pr.number = some files →
       filterPr pr files ctx.cfg ctx.now = (false, some r) →
       r ≠ .tooOld →
       processPage ctx st (pr :: rest) =
         processPage ctx (rejectedState st pr.number) rest) ∧
    (∀ (ctx : ScrapeCtx) (pages : List (List PR)) (st : ScrapeState),
       (scrapeLoop ctx pages st).stoppedEarly = true →
       st.stoppedEarly = true ∨
       ∃ page ∈ pages, ∃ pr ∈ page, ∃ files,
         ctx.getFiles pr.number = some files ∧
         filterPr pr files ctx.cfg ctx.now = (false, some .tooOld)) := by
  refine ⟨?_, ?_, ?_⟩
  · intro ctx st pr inner more files h1 h2 h3 h4
    exact scrapeLoop_too_old_stops ctx st pr inner more files h1 h2 h3 h4
  · intro ctx st pr rest files r h1 h2 h3 h4 h5
    exact processPage_other_reason_continues ctx st pr rest files r h1 h2 h3 h4 h5
  · intro ctx pages st h
    exact scrapeLoop_stoppedEarly_source ctx pages st h

/-- Demo configuration: merged PRs only, one-month age cutoff, 1–5 files. -/
def demoCtx : ScrapeCtx :=
  { cfg := ⟨⟨true, none, some 1, 1, 5, false, 0, []⟩, ⟨5, 10⟩⟩
    now := 10000000000
    getFiles := fun _ => some [⟨"a.py", "modified", 5, 5, 10, none⟩] }

/-- Demo candidate merged at epoch 0, far older than the cutoff. -/
def oldPr : PR := ⟨1, "old", some "b", "", some 0, some 0, none, "", "", ""⟩

/-- Demo candidate that was never merged. -/
def unmergedPr : PR := ⟨2, "open", some "b", "", some 0, none, none, "", "", ""⟩

/-- Demo start state: fresh run, nothing processed. -/
def emptyState : ScrapeState := ⟨[], [], 0, 0, 0, [], false⟩

/-- Witness for C1: the too-old candidate ends the scan at once with a saved
checkpoint even though another page is pending; the not-merged candidate
lets the page loop continue; and the early-stopped run indeed contains a
too-old rejection. -/
theorem too_old_stops_scan_witness :
    scrapeLoop demoCtx [[oldPr], [unmergedPr]] emptyState =
      saveCheckpoint demoCtx
        { rejectedState emptyState oldPr.number with stoppedEarly := true } ∧
    processPage demoCtx emptyState [unmergedPr] =
      processPage demoCtx (rejectedState emptyState unmergedPr.number) [] ∧
    (emptyState.stoppedEarly = true ∨
      ∃ page ∈ [[oldPr]], ∃ pr ∈ page, ∃ files,
        demoCtx.getFiles pr.number = some files ∧
        filterPr pr files demoCtx.cfg demoCtx.now = (false, some .tooOld)) := by
  refine ⟨?_, ?_, ?_⟩
  · exact too_old_stops_scan.1 demoCtx emptyState oldPr [] [[unmergedPr]]
      [⟨"a.py", "modified", 5, 5, 10, none⟩]
      (by decide) (by decide) rfl (by decide)
  · exact too_old_stops_scan.2.1 demoCtx emptyState unmergedPr []
      [⟨"a.py", "modified", 5, 5, 10, none⟩] .notMerged
      (by decide) (by decide) rfl (by decide) (by decide)
  · exact too_old_stops_scan.2.2 demoCtx [[oldPr]] emptyState (by decide)

end DwEval
